import Mathlib

/-!
Verification development for the floating-overlay ("Popup") component and the
link-preview feature of the me.kortin.cn website.

Part 1 embeds the position resolver of `Popup.tsx` (`getResponsiveSize` and
`calculatePosition`).  Coordinates are rationals, mirroring JavaScript number
arithmetic on the values these functions manipulate (sums, differences,
halving, and min — all exact in ℚ for the inputs of interest).

Part 2 embeds the link-preview component `LinkPreviewer.tsx` as an explicit
state machine: each event handler of the component becomes a state-transition
function, and browser callbacks (timer fire, iframe load/error) become events.

Part 3 embeds the `AnimationManager` class from the repository's design
document `popup-component-implementation.md` (its `show`/`hide` state machine
and `waitForAnimation`).
-/

namespace Spec2Proof

/-! ## Part 1: Popup position resolver (Popup.tsx) -/

/-- An element's bounding rectangle, as produced by `getBoundingClientRect`:
`right = left + width` and `bottom = top + height` for untransformed
elements. -/
structure Rect where
  left : ℚ
  top : ℚ
  width : ℚ
  height : ℚ
deriving DecidableEq

/-- `rect.right` of a DOM rectangle. -/
def Rect.right (r : Rect) : ℚ := r.left + r.width

/-- `rect.bottom` of a DOM rectangle. -/
def Rect.bottom (r : Rect) : ℚ := r.top + r.height

/-- The `target` prop: an explicit `{x, y}` coordinate object or an element
(represented by its bounding rectangle). -/
inductive Target where
  | point (x y : ℚ)
  | element (rect : Rect)
deriving DecidableEq

/-- The `placement` prop values. -/
inductive Placement where
  | top
  | bottom
  | left
  | right
  | center
  | auto
deriving DecidableEq

/-- The string the source stores in the returned position's `placement`
field (the `placement` local variable is returned verbatim). -/
def Placement.toLabel : Placement → String
  | .top => "top"
  | .bottom => "bottom"
  | .left => "left"
  | .right => "right"
  | .center => "center"
  | .auto => "auto"

/-- The `variant` theme prop values consulted by the flip branch. -/
inductive Variant where
  | default
  | tooltip
  | modal
  | dropdown
  | custom
deriving DecidableEq

/-- The inputs read by `calculatePosition`: the component props it consults
plus the `window.innerWidth`/`window.innerHeight` globals.  `autoAdjust` is
carried because it is part of the props interface, but — exactly as in the
source — `calculatePosition` never reads it. -/
structure PopupConfig where
  target : Option Target
  placement : Option Placement
  offset : Option (ℚ × ℚ)
  variant : Option Variant
  flip : Bool
  autoAdjust : Bool
  innerWidth : ℚ
  innerHeight : ℚ
deriving DecidableEq

/-- The popup size and margin chosen by `getResponsiveSize`. -/
structure ResponsiveSize where
  width : ℚ
  height : ℚ
  margin : ℚ
deriving DecidableEq

/-- `getResponsiveSize` from Popup.tsx: mobile (width ≤ 768), tablet
(width ≤ 1024) and desktop branches; `0.8`/`0.6` are written `8/10`/`6/10`. -/
def getResponsiveSize (screenWidth screenHeight : ℚ) : ResponsiveSize :=
  if screenWidth ≤ 768 then
    { width := min (screenWidth - 32) 320
      height := min (screenHeight - 32) 240
      margin := 16 }
  else if screenWidth ≤ 1024 then
    { width := min (screenWidth * (8/10)) 400
      height := min (screenHeight * (6/10)) 300
      margin := 20 }
  else
    { width := 400, height := 200, margin := 10 }

/-- The result record of `calculatePosition`. -/
structure Position where
  x : ℚ
  y : ℚ
  placement : String
  adjusted : Bool
deriving DecidableEq

/-- One axis of the boundary-detection block of `calculatePosition`
(the horizontal and vertical blocks are this code with `x`/`width`/
`innerWidth` respectively `y`/`height`/`innerHeight` substituted).
Returns the clamped coordinate and whether this axis was adjusted. -/
def clampAxis (v size viewport margin : ℚ) : ℚ × Bool :=
  if v < margin then (margin, true)
  else if v + size > viewport - margin then (viewport - size - margin, true)
  else (v, false)

/-- `calculatePosition` from Popup.tsx.

* no target → viewport center, placement `"center"`, not adjusted;
* coordinate-object target → the point returned verbatim, placement
  `"custom"`, not adjusted (no placement, offset, clamping or flip applied);
* element target → switch on `placement` (default branch, which also catches
  `'auto'`, computes the `bottom` formulas), then unconditional boundary
  clamping (the `autoAdjust` prop is not consulted), then the flip branch,
  which runs only for the `tooltip`/`dropdown` variants with `flip` set and
  compares the pre-clamp `originalX`/`originalY` against the margin; a flip
  rewrites one coordinate and sets `adjusted` but leaves the returned
  `placement` label unchanged. -/
def calculatePosition (cfg : PopupConfig) : Position :=
  match cfg.target with
  | none =>
      let rs := getResponsiveSize cfg.innerWidth cfg.innerHeight
      { x := cfg.innerWidth / 2 - rs.width / 2
        y := cfg.innerHeight / 2 - rs.height / 2
        placement := "center"
        adjusted := false }
  | some (.point px py) =>
      { x := px, y := py, placement := "custom", adjusted := false }
  | some (.element rect) =>
      let placement := cfg.placement.getD Placement.bottom
      let offset := cfg.offset.getD (0, 0)
      let rs := getResponsiveSize cfg.innerWidth cfg.innerHeight
      let x0 : ℚ :=
        match placement with
        | .top => rect.left + rect.width / 2 - rs.width / 2 + offset.1
        | .bottom => rect.left + rect.width / 2 - rs.width / 2 + offset.1
        | .left => rect.left - rs.width + offset.1
        | .right => rect.right + offset.1
        | .center => cfg.innerWidth / 2 - rs.width / 2 + offset.1
        | .auto => rect.left + rect.width / 2 - rs.width / 2 + offset.1
      let y0 : ℚ :=
        match placement with
        | .top => rect.top - rs.height + offset.2
        | .bottom => rect.bottom + offset.2
        | .left => rect.top + rect.height / 2 - rs.height / 2 + offset.2
        | .right => rect.top + rect.height / 2 - rs.height / 2 + offset.2
        | .center => cfg.innerHeight / 2 - rs.height / 2 + offset.2
        | .auto => rect.bottom + offset.2
      let cx := clampAxis x0 rs.width cfg.innerWidth rs.margin
      let cy := clampAxis y0 rs.height cfg.innerHeight rs.margin
      let adjusted := cx.2 || cy.2
      if (cfg.variant = some Variant.tooltip ∨ cfg.variant = some Variant.dropdown)
          ∧ cfg.flip = true then
        if placement = Placement.top ∧ y0 < rs.margin then
          { x := cx.1, y := rect.bottom + offset.2
            placement := placement.toLabel, adjusted := true }
        else if placement = Placement.bottom
            ∧ y0 + rs.height > cfg.innerHeight - rs.margin then
          { x := cx.1, y := rect.top - rs.height + offset.2
            placement := placement.toLabel, adjusted := true }
        else if placement = Placement.left ∧ x0 < rs.margin then
          { x := rect.right + offset.1, y := cy.1
            placement := placement.toLabel, adjusted := true }
        else if placement = Placement.right
            ∧ x0 + rs.width > cfg.innerWidth - rs.margin then
          { x := rect.left - rs.width + offset.1, y := cy.1
            placement := placement.toLabel, adjusted := true }
        else
          { x := cx.1, y := cy.1, placement := placement.toLabel
            adjusted := adjusted }
      else
        { x := cx.1, y := cy.1, placement := placement.toLabel
          adjusted := adjusted }

/-! ## Part 2: LinkPreviewer state machine (LinkPreviewer.tsx)

The component's reactive signals and timer variables become record fields;
each handler becomes a transition function.  A `*Pending` boolean records
that a timer of that kind is outstanding (`clearTimeout` resets it; the
corresponding fire event is only enabled while it is set).  The module-level
`Set<string>` caches `loadedUrls`/`failedUrls` become `List String` with
`List.insert` (which, like `Set.add`, is a no-op on a present element).
`isValidUrl` (`new URL(url)` succeeding) is an oracle bit `urlValid` of the
configuration, since the claims depend only on which branch it selects. -/

/-- The fixed inputs of one `LinkPreviewer` instance: its `url` prop, the
outcome of `isValidUrl url`, and `window.innerWidth` (read by
`isMobileDevice`). -/
structure LPConfig where
  url : String
  urlValid : Bool
  innerWidth : ℚ
deriving DecidableEq

/-- The mutable state of a `LinkPreviewer` instance together with the
module-level URL caches. -/
structure LPState where
  loadedUrls : List String
  failedUrls : List String
  showing : Bool
  isLoading : Bool
  hasError : Bool
  errorMessage : String
  iframeSrc : String
  debouncePending : Bool
  hidePending : Bool
  setSrcPending : Bool
  loadPending : Bool
deriving DecidableEq

/-- The initial state: empty caches, all signals at their initial values,
no timers outstanding. -/
def lpInit : LPState :=
  { loadedUrls := [], failedUrls := [], showing := false, isLoading := false
    hasError := false, errorMessage := "", iframeSrc := ""
    debouncePending := false, hidePending := false, setSrcPending := false
    loadPending := false }

/-- `loadPreviewContent`: starts the 100 ms timer that will set the iframe
`src` (which in turn starts the load-timeout timer when it fires). -/
def lpLoadPreviewContent (s : LPState) : LPState :=
  { s with setSrcPending := true }

/-- `loadPreview`: early-returns when the iframe already shows this URL with
no error (DOM cache); otherwise enters the loading state
(`isLoading := true`, error cleared), then consults the success cache, then
the failure cache, and only if the URL is in neither starts a fresh load.
The intermediate loading state is overwritten inside the two cache branches
(`setIsLoading(false)` plus the branch's own flags), so each branch below
carries the branch's net field values. -/
def lpLoadPreview (cfg : LPConfig) (s : LPState) : LPState :=
  if s.iframeSrc = cfg.url ∧ s.hasError = false then s
  else if cfg.url ∈ s.loadedUrls then
    { s with
        isLoading := false, hasError := false, errorMessage := "",
        iframeSrc := cfg.url }
  else if cfg.url ∈ s.failedUrls then
    { s with
        isLoading := false, hasError := true,
        errorMessage := "之前加载失败，可能是跨域限制或网络问题" }
  else
    lpLoadPreviewContent
      { s with isLoading := true, hasError := false, errorMessage := "" }

/-- `showPreview`: invalid URL → immediate error overlay (before anything
else); mobile viewport → plain return (before even the hide-timer clear);
otherwise clear the hide timer, show the previewer and run `loadPreview`. -/
def lpShowPreview (cfg : LPConfig) (s : LPState) : LPState :=
  if cfg.urlValid = false then
    { s with hasError := true, errorMessage := "无效的URL地址", showing := true }
  else if cfg.innerWidth ≤ 768 then s
  else lpLoadPreview cfg { s with hidePending := false, showing := true }

/-- The `setSrcTimer` callback: set the iframe `src` and start the
`LOAD_TIMEOUT` (8000 ms) timer. -/
def lpSetSrcFire (cfg : LPConfig) (s : LPState) : LPState :=
  if s.setSrcPending = true then
    { s with setSrcPending := false, iframeSrc := cfg.url, loadPending := true }
  else s

/-- The `loadTimer` (load timeout) callback: classify as failure and cache
the URL in `failedUrls`. -/
def lpLoadTimeoutFire (cfg : LPConfig) (s : LPState) : LPState :=
  if s.loadPending = true then
    { s with
        loadPending := false, isLoading := false, hasError := true,
        errorMessage := "加载超时，请稍后重试",
        failedUrls := s.failedUrls.insert cfg.url }
  else s

/-- `handleIframeLoad`: clear the load timeout, clear the loading and error
flags, and cache the URL in `loadedUrls`.  The browser can deliver this
event whenever the iframe has a `src`, including after the timeout fired. -/
def lpIframeLoad (cfg : LPConfig) (s : LPState) : LPState :=
  { s with
      loadPending := false, isLoading := false, hasError := false,
      loadedUrls := s.loadedUrls.insert cfg.url }

/-- `handleIframeError`: clear the load timeout, set the error state and
cache the URL in `failedUrls`. -/
def lpIframeError (cfg : LPConfig) (s : LPState) : LPState :=
  { s with
      loadPending := false, isLoading := false, hasError := true,
      errorMessage := "无法加载预览内容，可能是跨域限制或网络问题",
      failedUrls := s.failedUrls.insert cfg.url }

/-- `handleMouseEnter`: clear the debounce and hide timers and start a fresh
debounce timer (the `targetElement` signal is DOM-only and not modelled). -/
def lpMouseEnter (s : LPState) : LPState :=
  { s with debouncePending := true, hidePending := false }

/-- The debounce-timer callback: run `showPreview`. -/
def lpDebounceFire (cfg : LPConfig) (s : LPState) : LPState :=
  if s.debouncePending = true then
    lpShowPreview cfg { s with debouncePending := false }
  else s

/-- `handleMouseLeave`: cancel the debounce, load-timeout and set-src timers
and start the hide-delay timer. -/
def lpMouseLeave (s : LPState) : LPState :=
  { s with
      debouncePending := false, loadPending := false,
      setSrcPending := false, hidePending := true }

/-- The hide-delay timer callback: hide the previewer. -/
def lpHideFire (s : LPState) : LPState :=
  if s.hidePending = true then
    { s with hidePending := false, showing := false }
  else s

/-- `handlePopupMouseEnter`: cancel pending hide/debounce and keep showing. -/
def lpPopupMouseEnter (s : LPState) : LPState :=
  { s with hidePending := false, debouncePending := false, showing := true }

/-- `handlePopupMouseLeave`: restart the hide-delay timer. -/
def lpPopupMouseLeave (s : LPState) : LPState :=
  { s with hidePending := true }

/-- The events that can occur in a session: user interactions, timer fires
and iframe outcomes. -/
inductive LPEvent where
  | mouseEnter
  | mouseLeave
  | debounceFire
  | hideFire
  | setSrcFire
  | loadTimeout
  | iframeLoad
  | iframeError
  | popupMouseEnter
  | popupMouseLeave
deriving DecidableEq

/-- One step of the LinkPreviewer machine. -/
def lpStep (cfg : LPConfig) (s : LPState) : LPEvent → LPState
  | .mouseEnter => lpMouseEnter s
  | .mouseLeave => lpMouseLeave s
  | .debounceFire => lpDebounceFire cfg s
  | .hideFire => lpHideFire s
  | .setSrcFire => lpSetSrcFire cfg s
  | .loadTimeout => lpLoadTimeoutFire cfg s
  | .iframeLoad => lpIframeLoad cfg s
  | .iframeError => lpIframeError cfg s
  | .popupMouseEnter => lpPopupMouseEnter s
  | .popupMouseLeave => lpPopupMouseLeave s

/-- Run a sequence of events. -/
def lpRun (cfg : LPConfig) (s : LPState) (es : List LPEvent) : LPState :=
  es.foldl (lpStep cfg) s

/-- The cleanliness guard for one event: an iframe outcome (load or error)
may only be delivered while the load timeout is still pending. -/
def lpCleanGuard (s : LPState) : LPEvent → Bool
  | .iframeLoad => s.loadPending
  | .iframeError => s.loadPending
  | _ => true

/-- A trace is clean when every iframe outcome (load or error event) is
delivered while the load timeout is still pending — i.e. each load attempt
resolves at most once, with the losing signal never delivered late. -/
def lpClean (cfg : LPConfig) : LPState → List LPEvent → Bool
  | _, [] => true
  | s, e :: es => lpCleanGuard s e && lpClean cfg (lpStep cfg s e) es

/-- The invariant maintained by clean traces, stated for the instance's own
URL: the two caches do not both contain it; while a load is in flight it is
in neither cache; once it is cached as failed, an iframe showing it shows
the error overlay; an in-flight load implies the iframe `src` is set to the
URL with no error displayed; an invalid URL never starts a load; the
set-src and load-timeout timers are never simultaneously outstanding; and
no error is displayed while the set-src timer is outstanding. -/
def lpInv (cfg : LPConfig) (s : LPState) : Prop :=
  (¬(cfg.url ∈ s.loadedUrls ∧ cfg.url ∈ s.failedUrls))
  ∧ (s.setSrcPending = true ∨ s.loadPending = true →
      cfg.url ∉ s.loadedUrls ∧ cfg.url ∉ s.failedUrls)
  ∧ (cfg.url ∈ s.failedUrls → s.iframeSrc = cfg.url → s.hasError = true)
  ∧ (s.loadPending = true → s.iframeSrc = cfg.url)
  ∧ (s.loadPending = true → s.hasError = false)
  ∧ (cfg.urlValid = false → s.setSrcPending = false ∧ s.loadPending = false)
  ∧ (¬(s.setSrcPending = true ∧ s.loadPending = true))
  ∧ (s.setSrcPending = true → s.hasError = false)

instance (cfg : LPConfig) (s : LPState) : Decidable (lpInv cfg s) := by
  unfold lpInv; infer_instance

/-! ## Part 3: AnimationManager (popup-component-implementation.md)

The `AnimationManager` class keeps a private `animationState` field in
`{entering, entered, exiting, exited}`.  `show()` early-returns when the
state is `entering` or `entered`; otherwise it sets `entering`, applies the
enter class sets (with a forced reflow between them), awaits
`waitForAnimation`, and finally sets `entered`; `hide()` is the mirror
image.  The class-list side effects are recorded by ghost counters
(`enterSequences`/`exitSequences` count how many times the entrance/exit
class sequence ran), so that "exactly one entrance sequence" is statable.
The suspension at `await` splits each call into a start step and a
completion step (`animSettle`, the assignment performed after the await). -/

/-- The four animation states of `AnimationManager.animationState`. -/
inductive AnimationState where
  | entering
  | entered
  | exiting
  | exited
deriving DecidableEq

/-- Manager state: the `animationState` field plus ghost counters of how
many entrance and exit class sequences have been performed. -/
structure AMState where
  animationState : AnimationState
  enterSequences : Nat
  exitSequences : Nat
deriving DecidableEq

/-- The synchronous prefix of `show()`: the `entering`/`entered` guard, and
otherwise the transition to `entering` together with the entrance class
sequence (applyEnterClasses, reflow, applyEnterActiveClasses). -/
def amShowStart (s : AMState) : AMState :=
  if s.animationState = .entering ∨ s.animationState = .entered then s
  else { s with
          animationState := .entering
          enterSequences := s.enterSequences + 1 }

/-- The synchronous prefix of `hide()`: the `exiting`/`exited` guard, and
otherwise the transition to `exiting` together with the exit class
sequence. -/
def amHideStart (s : AMState) : AMState :=
  if s.animationState = .exiting ∨ s.animationState = .exited then s
  else { s with
          animationState := .exiting
          exitSequences := s.exitSequences + 1 }

/-- The resumption after `await waitForAnimation()`: `show()` sets
`entered`, `hide()` sets `exited`; in other states no await is outstanding
and nothing happens. -/
def amSettle (s : AMState) : AMState :=
  match s.animationState with
  | .entering => { s with animationState := .entered }
  | .exiting => { s with animationState := .exited }
  | _ => s

/-- The fallback delay of `waitForAnimation`: `this.options.duration || 300`
(JavaScript `||`, under which a duration of `0` also falls back to 300). -/
def fallbackDelay (duration : Option ℚ) : ℚ :=
  match duration with
  | none => 300
  | some d => if d = 0 then 300 else d

/-- The times at which `resolve` is called inside `waitForAnimation`: once
by the `animationend`/`transitionend` listener if the element ever fires a
completion event (at `eventTime`), and once by the fallback `setTimeout` at
`fallbackDelay`.  (A promise resolves at the first call; later calls are
ignored.) -/
def resolveCalls (duration : Option ℚ) (eventTime : Option ℚ) : List ℚ :=
  (match eventTime with
   | some t => [t]
   | none => []) ++ [fallbackDelay duration]

/-- The time at which the promise returned by `waitForAnimation` resolves:
the earliest `resolve` call. -/
def waitResolveTime (duration : Option ℚ) (eventTime : Option ℚ) : ℚ :=
  match resolveCalls duration eventTime with
  | [] => 0
  | t :: ts => ts.foldl min t

/-! ## Concrete inputs used by counterexamples and witnesses -/

/-- A point target at (-50, -50) with `autoAdjust` on, viewport 800×600. -/
def cexPointOffscreen : PopupConfig :=
  { target := some (.point (-50) (-50)), placement := some .bottom
    offset := none, variant := none, flip := false
    autoAdjust := true, innerWidth := 800, innerHeight := 600 }

/-- An element anchor fully inside a desktop viewport, placement `bottom`,
flip off. -/
def witElementAnchor : PopupConfig :=
  { target := some (.element ⟨500, 100, 40, 20⟩), placement := some .bottom
    offset := some (0, 10), variant := some .default, flip := false
    autoAdjust := true, innerWidth := 1200, innerHeight := 800 }

/-- The example scenario of the specification: anchor point (100, 50),
placement `bottom`, offset [0, 10], viewport 800×600, `autoAdjust` on. -/
def cexSpecScenario : PopupConfig :=
  { target := some (.point 100 50), placement := some .bottom
    offset := some (0, 10), variant := none, flip := false
    autoAdjust := true, innerWidth := 800, innerHeight := 600 }

/-- A `top` placement whose natural y is negative (anchor near the viewport
top), flip enabled, `tooltip` variant, desktop viewport 1200×800 (popup
height 200), so the natural y is 5 − 200 = −195. -/
def cexTopFlip : PopupConfig :=
  { target := some (.element ⟨100, 5, 50, 10⟩), placement := some .top
    offset := some (0, 0), variant := some .tooltip, flip := true
    autoAdjust := true, innerWidth := 1200, innerHeight := 800 }

/-- An `auto` placement whose largest available space is on top: viewport
1000×600 (tablet: popup 400×300, margin 20), anchor rectangle
(480, 550, 40, 10), spaces top = 550, bottom = 40, left = 480,
right = 480. -/
def cexAutoTopSpace : PopupConfig :=
  { target := some (.element ⟨480, 550, 40, 10⟩), placement := some .auto
    offset := some (0, 0), variant := none, flip := false
    autoAdjust := true, innerWidth := 1000, innerHeight := 600 }

/-- The same configuration with placement `top` (what a largest-space
selection would have requested). -/
def cexAutoTopSpaceAsTop : PopupConfig :=
  { cexAutoTopSpace with placement := some .top }

/-- A link-preview instance on a desktop viewport with a valid URL. -/
def witLPConfig : LPConfig :=
  { url := "https://a.example/", urlValid := true, innerWidth := 1200 }

/-- A trace in which the load timeout fires and the iframe `load` event
arrives afterwards (the browser is free to deliver it late). -/
def cexLateLoadTrace : List LPEvent :=
  [.mouseEnter, .debounceFire, .setSrcFire, .loadTimeout, .iframeLoad]

/-- A clean trace ending in a successful load. -/
def witSuccessTrace : List LPEvent :=
  [.mouseEnter, .debounceFire, .setSrcFire, .iframeLoad]

/-- A clean trace ending in a load timeout. -/
def witTimeoutTrace : List LPEvent :=
  [.mouseEnter, .debounceFire, .setSrcFire, .loadTimeout]

/-- A link-preview instance whose URL fails `isValidUrl`. -/
def cexInvalidLPConfig : LPConfig :=
  { url := "not a url", urlValid := false, innerWidth := 1200 }

/-- A link-preview instance with a valid URL on a mobile viewport. -/
def witMobileLPConfig : LPConfig :=
  { url := "https://a.example/", urlValid := true, innerWidth := 500 }

/-- An invalid-URL instance on a mobile viewport. -/
def cexInvalidMobileLPConfig : LPConfig :=
  { url := "not a url", urlValid := false, innerWidth := 500 }

/-! ## Helper lemmas -/

/-- The responsive margin is one of 16, 20, 10 — always positive. -/
theorem getResponsiveSize_margin_pos (w h : ℚ) :
    0 < (getResponsiveSize w h).margin := by
  unfold getResponsiveSize
  split_ifs <;> norm_num

/-- Boundary clamping keeps a coordinate inside `[0, viewport - size]`
whenever the popup together with the margin fits in the viewport. -/
theorem clampAxis_bounds (v size viewport margin : ℚ)
    (hm : 0 < margin) (hfit : size + margin ≤ viewport) :
    0 ≤ (clampAxis v size viewport margin).1
    ∧ (clampAxis v size viewport margin).1 + size ≤ viewport := by
  unfold clampAxis
  split_ifs with h1 h2 <;> dsimp only <;> constructor <;> linarith

/-! ## Claim theorems -/

/-- C1 counterexample: with `autoAdjust` enabled and a popup (800×600
viewport ⇒ popup 400×300) smaller than the viewport, an explicit point
anchor at (−50, −50) is returned verbatim, so the computed x is negative —
the clamping invariant fails for the point anchor kind. -/
theorem c1_counterexample :
    cexPointOffscreen.autoAdjust = true
    ∧ (calculatePosition cexPointOffscreen).x < 0 := by
  constructor
  · rfl
  · show ((-50 : ℚ)) < 0
    norm_num

/-- C1 (amended): the clamping invariant `0 ≤ x`, `x + popupWidth ≤
viewportWidth` (and symmetrically for y) holds for element anchors and for
the absent-anchor centre fallback — but not for explicit point anchors,
which bypass clamping — provided the responsive popup size plus margin fits
in the viewport and the flip branch does not apply (flip off or variant not
`tooltip`/`dropdown`).  Clamping is unconditional: the `autoAdjust` flag is
never consulted. -/
theorem c1_clamp_invariant (cfg : PopupConfig)
    (hpoint : ∀ px py, cfg.target ≠ some (.point px py))
    (hflip : ¬((cfg.variant = some .tooltip ∨ cfg.variant = some .dropdown)
      ∧ cfg.flip = true))
    (hw : (getResponsiveSize cfg.innerWidth cfg.innerHeight).width
      + (getResponsiveSize cfg.innerWidth cfg.innerHeight).margin ≤ cfg.innerWidth)
    (hh : (getResponsiveSize cfg.innerWidth cfg.innerHeight).height
      + (getResponsiveSize cfg.innerWidth cfg.innerHeight).margin ≤ cfg.innerHeight) :
    0 ≤ (calculatePosition cfg).x
    ∧ (calculatePosition cfg).x
      + (getResponsiveSize cfg.innerWidth cfg.innerHeight).width ≤ cfg.innerWidth
    ∧ 0 ≤ (calculatePosition cfg).y
    ∧ (calculatePosition cfg).y
      + (getResponsiveSize cfg.innerWidth cfg.innerHeight).height ≤ cfg.innerHeight := by
  have hm := getResponsiveSize_margin_pos cfg.innerWidth cfg.innerHeight
  rcases htgt : cfg.target with _ | tgt
  · simp only [calculatePosition, htgt]
    refine ⟨by linarith, by linarith, by linarith, by linarith⟩
  · rcases tgt with ⟨px, py⟩ | rect
    · exact absurd htgt (hpoint px py)
    · simp only [calculatePosition, htgt, if_neg hflip]
      exact ⟨(clampAxis_bounds _ _ _ _ hm hw).1, (clampAxis_bounds _ _ _ _ hm hw).2,
        (clampAxis_bounds _ _ _ _ hm hh).1, (clampAxis_bounds _ _ _ _ hm hh).2⟩

/-- C1 witness: a concrete element anchor in a 1200×800 viewport satisfies
the hypotheses, and the amended clamping invariant holds there. -/
theorem c1_clamp_invariant_witness :
    (∀ px py, witElementAnchor.target ≠ some (.point px py))
    ∧ (0 ≤ (calculatePosition witElementAnchor).x
      ∧ (calculatePosition witElementAnchor).x
        + (getResponsiveSize witElementAnchor.innerWidth
            witElementAnchor.innerHeight).width ≤ witElementAnchor.innerWidth
      ∧ 0 ≤ (calculatePosition witElementAnchor).y
      ∧ (calculatePosition witElementAnchor).y
        + (getResponsiveSize witElementAnchor.innerWidth
            witElementAnchor.innerHeight).height ≤ witElementAnchor.innerHeight) :=
  ⟨by intro px py; simp [witElementAnchor],
    c1_clamp_invariant witElementAnchor (by intro px py; simp [witElementAnchor])
      (by decide)
      (by norm_num [witElementAnchor, getResponsiveSize])
      (by norm_num [witElementAnchor, getResponsiveSize])⟩

/-- C2 counterexample: on the specification's example scenario (anchor
point (100, 50), popup placement `bottom`, offset [0, 10], viewport
800×600, `autoAdjust` on) the resolver returns x = 100 — not the expected
x = 10 — and `adjusted = false`, not `true`. -/
theorem c2_counterexample :
    (calculatePosition cexSpecScenario).x = 100
    ∧ ¬((calculatePosition cexSpecScenario).x = 10
        ∧ (calculatePosition cexSpecScenario).y = 60
        ∧ (calculatePosition cexSpecScenario).adjusted = true) := by
  constructor
  · rfl
  · intro ⟨hx, _, _⟩
    have : (100 : ℚ) = 10 := by rw [← hx]; rfl
    norm_num at this

/-- C2 (amended): a coordinate-object target is returned verbatim: the
example scenario yields x = 100, y = 50, placement `"custom"`,
`adjusted = false` — placement, offset, popup size and clamping are not
applied to point targets. -/
theorem c2_point_target_verbatim :
    calculatePosition cexSpecScenario
      = { x := 100, y := 50, placement := "custom", adjusted := false } := rfl

/-- C3 counterexample: a requested `top` placement with natural y = −195,
flip enabled, `tooltip` variant (so the flip branch runs) returns the
placement label `"top"`, not `"bottom"` — the resolver never relabels a
flipped position. -/
theorem c3_counterexample :
    (calculatePosition cexTopFlip).placement = "top"
    ∧ (calculatePosition cexTopFlip).placement ≠ "bottom" := by
  have hTop : (calculatePosition cexTopFlip).placement = "top" := by
    norm_num [cexTopFlip, calculatePosition, getResponsiveSize, clampAxis,
      Rect.bottom, Option.getD, Placement.toLabel]
  exact ⟨hTop, by rw [hTop]; decide⟩

/-- C3 (amended): for a requested `top` placement whose natural
(pre-clamp) y is negative, when the flip branch applies (flip enabled and
variant `tooltip` or `dropdown`), the resolver rewrites y to
`anchorRect.bottom + offsetY` and sets `adjusted = true`, but the returned
placement label remains `"top"`; the rewritten y is non-negative exactly
when `anchorRect.bottom + offsetY` is. -/
theorem c3_flip_rewrites_y (rect : Rect) (off : ℚ × ℚ) (v : Variant)
    (adj : Bool) (w h : ℚ)
    (hv : v = .tooltip ∨ v = .dropdown)
    (hy : rect.top - (getResponsiveSize w h).height + off.2 < 0) :
    (calculatePosition
        ⟨some (.element rect), some .top, some off, some v, true, adj, w, h⟩).placement
      = "top"
    ∧ (calculatePosition
        ⟨some (.element rect), some .top, some off, some v, true, adj, w, h⟩).adjusted
      = true
    ∧ (calculatePosition
        ⟨some (.element rect), some .top, some off, some v, true, adj, w, h⟩).y
      = rect.bottom + off.2 := by
  have hm := getResponsiveSize_margin_pos w h
  have hv' : some v = some Variant.tooltip ∨ some v = some Variant.dropdown := by
    cases hv with
    | inl hl => exact Or.inl (congrArg some hl)
    | inr hr => exact Or.inr (congrArg some hr)
  have hlt : rect.top - (getResponsiveSize w h).height + off.2
      < (getResponsiveSize w h).margin := by linarith
  have hOuter : (some v = some Variant.tooltip ∨ some v = some Variant.dropdown)
      ∧ True := ⟨hv', trivial⟩
  have hInner : True ∧ rect.top - (getResponsiveSize w h).height + off.2
      < (getResponsiveSize w h).margin := ⟨trivial, hlt⟩
  refine ⟨?_, ?_, ?_⟩ <;>
    (simp only [calculatePosition, Option.getD]
     rw [if_pos hOuter, if_pos hInner])
  all_goals rfl

/-- C3 witness: the counterexample configuration satisfies the amended
claim's hypotheses; there the flipped y is the anchor bottom (15). -/
theorem c3_flip_rewrites_y_witness :
    ((100 : ℚ), (5 : ℚ)).2 - (getResponsiveSize 1200 800).height + ((0 : ℚ), (0 : ℚ)).2 < 0
    ∧ ((calculatePosition
        ⟨some (.element ⟨100, 5, 50, 10⟩), some .top, some (0, 0),
          some .tooltip, true, true, 1200, 800⟩).placement = "top"
      ∧ (calculatePosition
        ⟨some (.element ⟨100, 5, 50, 10⟩), some .top, some (0, 0),
          some .tooltip, true, true, 1200, 800⟩).adjusted = true
      ∧ (calculatePosition
        ⟨some (.element ⟨100, 5, 50, 10⟩), some .top, some (0, 0),
          some .tooltip, true, true, 1200, 800⟩).y
        = Rect.bottom ⟨100, 5, 50, 10⟩ + ((0 : ℚ), (0 : ℚ)).2) :=
  ⟨by norm_num [getResponsiveSize, Rect.bottom],
    c3_flip_rewrites_y ⟨100, 5, 50, 10⟩ (0, 0) .tooltip true 1200 800
      (Or.inl rfl) (by norm_num [getResponsiveSize, Rect.bottom])⟩

/-- C7 counterexample: with placement `auto`, anchor (480, 550, 40, 10) in
a 1000×600 viewport, the available space above the anchor (550) is strictly
larger than below (40), left (480) and right (480); a largest-space
selection would place on top (y = 250 after positioning), but the resolver
returns y = 280 with label `"auto"` — the bottom-formula position — so
`auto` does not select the placement with the largest available space. -/
theorem c7_counterexample :
    (calculatePosition cexAutoTopSpace).y = 280
    ∧ (calculatePosition cexAutoTopSpace).placement = "auto"
    ∧ (calculatePosition cexAutoTopSpaceAsTop).y = 250
    ∧ (calculatePosition cexAutoTopSpace).y ≠ (calculatePosition cexAutoTopSpaceAsTop).y := by
  have hAuto : (calculatePosition cexAutoTopSpace).y = 280 := by
    norm_num [cexAutoTopSpace, calculatePosition, getResponsiveSize, clampAxis,
      Rect.bottom, Option.getD]
  have hTop : (calculatePosition cexAutoTopSpaceAsTop).y = 250 := by
    norm_num [cexAutoTopSpaceAsTop, cexAutoTopSpace, calculatePosition,
      getResponsiveSize, clampAxis, Rect.bottom, Option.getD]
  refine ⟨hAuto, ?_, hTop, ?_⟩
  · norm_num [cexAutoTopSpace, calculatePosition, getResponsiveSize, clampAxis,
      Rect.bottom, Option.getD, Placement.toLabel]
  · rw [hAuto, hTop]; norm_num

/-- C7 (amended): the resolver handles `auto` through the `switch`'s
default branch: whenever the flip branch does not apply, an `auto` request
produces exactly the coordinates and `adjusted` flag of a `bottom` request
(the label, the requested placement, differs) — deterministic, but
independent of the available space in the four directions. -/
theorem c7_auto_positions_as_bottom (t : Option Target) (off : Option (ℚ × ℚ))
    (v : Option Variant) (fl adj : Bool) (w h : ℚ)
    (hflip : ¬((v = some .tooltip ∨ v = some .dropdown) ∧ fl = true)) :
    (calculatePosition ⟨t, some .auto, off, v, fl, adj, w, h⟩).x
      = (calculatePosition ⟨t, some .bottom, off, v, fl, adj, w, h⟩).x
    ∧ (calculatePosition ⟨t, some .auto, off, v, fl, adj, w, h⟩).y
      = (calculatePosition ⟨t, some .bottom, off, v, fl, adj, w, h⟩).y
    ∧ (calculatePosition ⟨t, some .auto, off, v, fl, adj, w, h⟩).adjusted
      = (calculatePosition ⟨t, some .bottom, off, v, fl, adj, w, h⟩).adjusted := by
  rcases t with _ | tgt
  · exact ⟨rfl, rfl, rfl⟩
  · rcases tgt with ⟨px, py⟩ | rect
    · exact ⟨rfl, rfl, rfl⟩
    · simp only [calculatePosition, Option.getD, if_neg hflip]
      exact ⟨trivial, trivial, trivial⟩

/-- C7 witness: at the counterexample input (variant absent, flip off) the
`auto` position coincides with the `bottom` position coordinatewise. -/
theorem c7_auto_positions_as_bottom_witness :
    ¬((none = some Variant.tooltip ∨ none = some Variant.dropdown)
        ∧ (false : Bool) = true)
    ∧ ((calculatePosition
          ⟨some (.element ⟨480, 550, 40, 10⟩), some .auto, some (0, 0),
            none, false, true, 1000, 600⟩).x
        = (calculatePosition
          ⟨some (.element ⟨480, 550, 40, 10⟩), some .bottom, some (0, 0),
            none, false, true, 1000, 600⟩).x
      ∧ (calculatePosition
          ⟨some (.element ⟨480, 550, 40, 10⟩), some .auto, some (0, 0),
            none, false, true, 1000, 600⟩).y
        = (calculatePosition
          ⟨some (.element ⟨480, 550, 40, 10⟩), some .bottom, some (0, 0),
            none, false, true, 1000, 600⟩).y
      ∧ (calculatePosition
          ⟨some (.element ⟨480, 550, 40, 10⟩), some .auto, some (0, 0),
            none, false, true, 1000, 600⟩).adjusted
        = (calculatePosition
          ⟨some (.element ⟨480, 550, 40, 10⟩), some .bottom, some (0, 0),
            none, false, true, 1000, 600⟩).adjusted) :=
  ⟨by decide,
    c7_auto_positions_as_bottom (some (.element ⟨480, 550, 40, 10⟩)) (some (0, 0))
      none false true 1000 600 (by decide)⟩

/-- `loadPreview` preserves the cache invariant (for a valid URL; invalid
URLs never reach `loadPreview`). -/
theorem lpInv_loadPreview (cfg : LPConfig) (s : LPState)
    (hinv : lpInv cfg s) (hvalid : cfg.urlValid = true) :
    lpInv cfg (lpLoadPreview cfg s) := by
  obtain ⟨h1, h2, h3, h4, h5, h6, h7, h8⟩ := hinv
  unfold lpLoadPreview
  split_ifs with hdom hload hfail
  · exact ⟨h1, h2, h3, h4, h5, h6, h7, h8⟩
  · exact ⟨h1, h2,
      fun hf _ => absurd ⟨hload, hf⟩ h1,
      fun _ => rfl, fun _ => rfl, h6, h7, fun _ => rfl⟩
  · refine ⟨h1, h2, fun _ _ => rfl, h4, ?_, h6, h7, ?_⟩
    · intro hl
      exact absurd hfail (h2 (Or.inr hl)).2
    · intro hs
      exact absurd hfail (h2 (Or.inl hs)).2
  · refine ⟨h1, fun _ => ⟨hload, hfail⟩, fun hf => absurd hf hfail,
      fun hl => h4 hl, fun _ => rfl, ?_, ?_, fun _ => rfl⟩
    · intro hval
      rw [hval] at hvalid
      exact absurd hvalid (by simp)
    · rintro ⟨-, hl⟩
      exact hdom ⟨h4 hl, h5 hl⟩

/-- `showPreview` preserves the cache invariant. -/
theorem lpInv_showPreview (cfg : LPConfig) (s : LPState)
    (hinv : lpInv cfg s) : lpInv cfg (lpShowPreview cfg s) := by
  unfold lpShowPreview
  split_ifs with hinvalid hmobile
  · obtain ⟨h1, h2, h3, h4, h5, h6, h7, h8⟩ := hinv
    refine ⟨h1, h2, fun _ _ => rfl, h4, ?_, h6, h7, ?_⟩
    · intro hl
      rw [(h6 hinvalid).2] at hl
      exact absurd hl (by simp)
    · intro hs
      rw [(h6 hinvalid).1] at hs
      exact absurd hs (by simp)
  · exact hinv
  · have hvalid : cfg.urlValid = true := by
      revert hinvalid
      cases cfg.urlValid <;> simp
    exact lpInv_loadPreview cfg _ hinv hvalid

/-- Every clean-guarded step preserves the cache invariant. -/
theorem lpInv_step (cfg : LPConfig) (s : LPState) (e : LPEvent)
    (hinv : lpInv cfg s)
    (hguard : e = .iframeLoad ∨ e = .iframeError → s.loadPending = true) :
    lpInv cfg (lpStep cfg s e) := by
  obtain ⟨h1, h2, h3, h4, h5, h6, h7, h8⟩ := hinv
  cases e with
  | mouseEnter => exact ⟨h1, h2, h3, h4, h5, h6, h7, h8⟩
  | mouseLeave =>
      show lpInv cfg (lpMouseLeave s)
      unfold lpMouseLeave lpInv
      exact ⟨h1, by simp, h3, by simp, by simp, by simp, by simp, by simp⟩
  | debounceFire =>
      show lpInv cfg (lpDebounceFire cfg s)
      unfold lpDebounceFire
      split_ifs with hd
      · exact lpInv_showPreview cfg _ ⟨h1, h2, h3, h4, h5, h6, h7, h8⟩
      · exact ⟨h1, h2, h3, h4, h5, h6, h7, h8⟩
  | hideFire =>
      show lpInv cfg (lpHideFire s)
      unfold lpHideFire
      split_ifs with hh
      · exact ⟨h1, h2, h3, h4, h5, h6, h7, h8⟩
      · exact ⟨h1, h2, h3, h4, h5, h6, h7, h8⟩
  | setSrcFire =>
      show lpInv cfg (lpSetSrcFire cfg s)
      unfold lpSetSrcFire
      split_ifs with hs
      · refine ⟨h1, fun _ => h2 (Or.inl hs), ?_, fun _ => rfl,
          fun _ => h8 hs, ?_, by simp, by simp⟩
        · intro hf _
          exact absurd hf (h2 (Or.inl hs)).2
        · intro hval
          rw [(h6 hval).1] at hs
          exact absurd hs (by simp)
      · exact ⟨h1, h2, h3, h4, h5, h6, h7, h8⟩
  | loadTimeout =>
      show lpInv cfg (lpLoadTimeoutFire cfg s)
      unfold lpLoadTimeoutFire
      split_ifs with hl
      · refine ⟨?_, ?_, fun _ _ => rfl, by simp, by simp, ?_, by simp, ?_⟩
        · rintro ⟨ha, -⟩
          exact absurd ha (h2 (Or.inr hl)).1
        · rintro (hs | hld)
          · exact absurd ⟨hs, hl⟩ h7
          · exact absurd hld (by simp)
        · intro hval
          exact ⟨(h6 hval).1, rfl⟩
        · intro hs
          exact absurd ⟨hs, hl⟩ h7
      · exact ⟨h1, h2, h3, h4, h5, h6, h7, h8⟩
  | iframeLoad =>
      have hl := hguard (Or.inl rfl)
      show lpInv cfg (lpIframeLoad cfg s)
      unfold lpIframeLoad lpInv
      refine ⟨?_, ?_, ?_, by simp, fun _ => rfl, ?_, by simp, fun _ => rfl⟩
      · rintro ⟨-, hb⟩
        exact absurd hb (h2 (Or.inr hl)).2
      · rintro (hs | hld)
        · exact absurd ⟨hs, hl⟩ h7
        · exact absurd hld (by simp)
      · intro hf
        exact absurd hf (h2 (Or.inr hl)).2
      · intro hval
        exact ⟨(h6 hval).1, rfl⟩
  | iframeError =>
      have hl := hguard (Or.inr rfl)
      show lpInv cfg (lpIframeError cfg s)
      unfold lpIframeError lpInv
      refine ⟨?_, ?_, fun _ _ => rfl, by simp, by simp, ?_, by simp, ?_⟩
      · rintro ⟨ha, -⟩
        exact absurd ha (h2 (Or.inr hl)).1
      · rintro (hs | hld)
        · exact absurd ⟨hs, hl⟩ h7
        · exact absurd hld (by simp)
      · intro hval
        exact ⟨(h6 hval).1, rfl⟩
      · intro hs
        exact absurd ⟨hs, hl⟩ h7
  | popupMouseEnter => exact ⟨h1, h2, h3, h4, h5, h6, h7, h8⟩
  | popupMouseLeave => exact ⟨h1, h2, h3, h4, h5, h6, h7, h8⟩

/-- The cache invariant holds along every clean trace. -/
theorem lpInv_run (cfg : LPConfig) (s : LPState) (es : List LPEvent)
    (hinv : lpInv cfg s) (hclean : lpClean cfg s es = true) :
    lpInv cfg (lpRun cfg s es) := by
  induction es generalizing s with
  | nil => exact hinv
  | cons e es ih =>
      rw [lpClean, Bool.and_eq_true] at hclean
      obtain ⟨hg, hrest⟩ := hclean
      refine ih (lpStep cfg s e) ?_ hrest
      refine lpInv_step cfg s e hinv ?_
      rintro (he | he) <;> subst he <;> exact hg

/-- The initial state satisfies the cache invariant. -/
theorem lpInv_init (cfg : LPConfig) : lpInv cfg lpInit := by
  refine ⟨?_, ?_, ?_, ?_, ?_, ?_, ?_, ?_⟩ <;> simp [lpInit, lpInv]

/-- C4 counterexample: starting from the empty caches, the trace
show → set-src → load-timeout → late iframe-load puts the URL in
`failedUrls` (at the timeout) and then also in `loadedUrls` (at the late
load event, whose handler adds unconditionally), so the two cache sets are
not disjoint. -/
theorem c4_counterexample :
    witLPConfig.url ∈ (lpRun witLPConfig lpInit cexLateLoadTrace).loadedUrls
    ∧ witLPConfig.url ∈ (lpRun witLPConfig lpInit cexLateLoadTrace).failedUrls := by
  decide

/-- C4 (amended): the caches stay disjoint on every clean trace — one in
which each load attempt resolves at most once, i.e. iframe load/error
events are only delivered while the load timeout is pending.  A load event
delivered after the timeout fired adds the URL to `loadedUrls` while it
stays in `failedUrls`, so without that restriction the sets can
intersect. -/
theorem c4_disjoint_clean (cfg : LPConfig) (es : List LPEvent)
    (hclean : lpClean cfg lpInit es = true) :
    ¬(cfg.url ∈ (lpRun cfg lpInit es).loadedUrls
      ∧ cfg.url ∈ (lpRun cfg lpInit es).failedUrls) :=
  (lpInv_run cfg lpInit es (lpInv_init cfg) hclean).1

/-- C4 witness: the clean successful-load trace keeps the caches
disjoint. -/
theorem c4_disjoint_clean_witness :
    lpClean witLPConfig lpInit witSuccessTrace = true
    ∧ ¬(witLPConfig.url ∈ (lpRun witLPConfig lpInit witSuccessTrace).loadedUrls
      ∧ witLPConfig.url ∈ (lpRun witLPConfig lpInit witSuccessTrace).failedUrls) :=
  ⟨by decide, c4_disjoint_clean witLPConfig witSuccessTrace (by decide)⟩

/-- C5: in any state satisfying the cache invariant (valid URL, desktop
viewport), a show request for a URL in the success cache shows the
previewer with the cached content and no error and starts no set-src or
load-timeout timer; a show request for a URL in the failure cache shows
the previewer in the error state and starts no timer (no retry). -/
theorem c5_cached_urls (cfg : LPConfig) (s : LPState)
    (hinv : lpInv cfg s) (hvalid : cfg.urlValid = true)
    (hdesk : ¬cfg.innerWidth ≤ 768) :
    (cfg.url ∈ s.loadedUrls →
      (lpShowPreview cfg s).showing = true
      ∧ (lpShowPreview cfg s).hasError = false
      ∧ (lpShowPreview cfg s).iframeSrc = cfg.url
      ∧ (lpShowPreview cfg s).setSrcPending = false
      ∧ (lpShowPreview cfg s).loadPending = false)
    ∧ (cfg.url ∈ s.failedUrls →
      (lpShowPreview cfg s).showing = true
      ∧ (lpShowPreview cfg s).hasError = true
      ∧ (lpShowPreview cfg s).setSrcPending = false
      ∧ (lpShowPreview cfg s).loadPending = false) := by
  obtain ⟨h1, h2, h3, h4, h5, h6, h7, h8⟩ := hinv
  have hflags : cfg.url ∈ s.loadedUrls ∨ cfg.url ∈ s.failedUrls →
      s.setSrcPending = false ∧ s.loadPending = false := by
    intro hm
    constructor
    · cases hss : s.setSrcPending with
      | false => rfl
      | true =>
          rcases hm with hm | hm
          · exact absurd hm (h2 (Or.inl hss)).1
          · exact absurd hm (h2 (Or.inl hss)).2
    · cases hld : s.loadPending with
      | false => rfl
      | true =>
          rcases hm with hm | hm
          · exact absurd hm (h2 (Or.inr hld)).1
          · exact absurd hm (h2 (Or.inr hld)).2
  have hnv : ¬(cfg.urlValid = false) := by simp [hvalid]
  unfold lpShowPreview
  rw [if_neg hnv, if_neg hdesk]
  unfold lpLoadPreview
  split_ifs with hdom hload hfail
  · constructor
    · intro hmem
      exact ⟨rfl, hdom.2, hdom.1, (hflags (Or.inl hmem)).1, (hflags (Or.inl hmem)).2⟩
    · intro hmem
      have herr := h3 hmem hdom.1
      rw [hdom.2] at herr
      exact absurd herr (by simp)
  · constructor
    · intro hmem
      exact ⟨rfl, rfl, rfl, (hflags (Or.inl hmem)).1, (hflags (Or.inl hmem)).2⟩
    · intro hmem
      exact absurd ⟨hload, hmem⟩ h1
  · constructor
    · intro hmem
      exact absurd hmem hload
    · intro hmem
      exact ⟨rfl, rfl, (hflags (Or.inr hmem)).1, (hflags (Or.inr hmem)).2⟩
  · constructor
    · intro hmem
      exact absurd hmem hload
    · intro hmem
      exact absurd hmem hfail

/-- C5 witness: with the URL cached as loaded, a show request on a desktop
viewport serves the cached preview with no timers started. -/
theorem c5_cached_urls_witness :
    lpInv witLPConfig { lpInit with loadedUrls := ["https://a.example/"] }
    ∧ witLPConfig.urlValid = true
    ∧ ¬witLPConfig.innerWidth ≤ 768
    ∧ witLPConfig.url ∈
        ({ lpInit with loadedUrls := ["https://a.example/"] } : LPState).loadedUrls
    ∧ ((lpShowPreview witLPConfig
          { lpInit with loadedUrls := ["https://a.example/"] }).showing = true
      ∧ (lpShowPreview witLPConfig
          { lpInit with loadedUrls := ["https://a.example/"] }).hasError = false
      ∧ (lpShowPreview witLPConfig
          { lpInit with loadedUrls := ["https://a.example/"] }).iframeSrc
            = witLPConfig.url
      ∧ (lpShowPreview witLPConfig
          { lpInit with loadedUrls := ["https://a.example/"] }).setSrcPending = false
      ∧ (lpShowPreview witLPConfig
          { lpInit with loadedUrls := ["https://a.example/"] }).loadPending = false) :=
  ⟨by decide, by decide, by decide, by decide,
    (c5_cached_urls witLPConfig { lpInit with loadedUrls := ["https://a.example/"] }
      (by decide) (by decide) (by decide)).1 (by decide)⟩

/-- C6: an invalid URL is handled synchronously by the first branch of
`showPreview`: the resulting state is exactly the input state with the
error flag and message set and the previewer shown — in particular no
set-src or load-timeout timer is started and, since the embedding is a
total function (the `try`/`catch` lives inside `isValidUrl`), no exception
reaches the caller. -/
theorem c6_invalid_url (cfg : LPConfig) (s : LPState)
    (h : cfg.urlValid = false) :
    lpShowPreview cfg s =
      { s with hasError := true, errorMessage := "无效的URL地址", showing := true } := by
  unfold lpShowPreview
  rw [if_pos h]

/-- C6 witness: the invalid-URL configuration from the initial state. -/
theorem c6_invalid_url_witness :
    cexInvalidLPConfig.urlValid = false
    ∧ lpShowPreview cexInvalidLPConfig lpInit =
      { lpInit with
          hasError := true, errorMessage := "无效的URL地址", showing := true } :=
  ⟨rfl, c6_invalid_url cexInvalidLPConfig lpInit rfl⟩

/-- C10: on a mobile-width viewport (innerWidth ≤ 768) a show request with
a valid URL returns with the state completely unchanged (no show, no load,
no timer); a show request with an invalid URL still shows the error
overlay regardless of viewport width, because the URL validation branch
precedes the mobile-device check. -/
theorem c10_mobile_gate (cfg : LPConfig) (s : LPState) :
    (cfg.urlValid = true → cfg.innerWidth ≤ 768 → lpShowPreview cfg s = s)
    ∧ (cfg.urlValid = false →
        (lpShowPreview cfg s).showing = true
        ∧ (lpShowPreview cfg s).hasError = true) := by
  constructor
  · intro hv hm
    unfold lpShowPreview
    rw [if_neg (by simp [hv]), if_pos hm]
  · intro hv
    unfold lpShowPreview
    rw [if_pos hv]
    exact ⟨rfl, rfl⟩

/-- C10 witness: a valid URL on a 500-wide viewport is a complete no-op;
an invalid URL on the same viewport still shows the error overlay. -/
theorem c10_mobile_gate_witness :
    lpShowPreview witMobileLPConfig lpInit = lpInit
    ∧ ((lpShowPreview cexInvalidMobileLPConfig lpInit).showing = true
      ∧ (lpShowPreview cexInvalidMobileLPConfig lpInit).hasError = true) :=
  ⟨(c10_mobile_gate witMobileLPConfig lpInit).1 (by decide) (by decide),
    (c10_mobile_gate cexInvalidMobileLPConfig lpInit).2 (by decide)⟩

/-- C8: the animation manager's show is idempotent.  A second `show` call
with no intervening hide is a no-op whether the first is still awaiting
completion (state `entering`) or has completed (state `entered`); in both
schedules — back-to-back starts, or start/settle/start — the entrance
sequence runs at most once more than before, and exactly once when
starting from `exited`; and a `show` issued in state `entering` or
`entered` leaves the state untouched. -/
theorem c8_show_idempotent (s : AMState) :
    amShowStart (amShowStart s) = amShowStart s
    ∧ amShowStart (amSettle (amShowStart s)) = amSettle (amShowStart s)
    ∧ (amShowStart (amShowStart s)).enterSequences ≤ s.enterSequences + 1
    ∧ (s.animationState = .exited →
        (amShowStart (amShowStart s)).enterSequences = s.enterSequences + 1)
    ∧ (s.animationState = .entering ∨ s.animationState = .entered →
        amShowStart s = s) := by
  obtain ⟨st, en, ex⟩ := s
  cases st <;>
    simp [amShowStart, amSettle]

/-- C8 witness: from `exited` two consecutive shows bump the entrance
counter exactly once; a show in state `entered` is the identity. -/
theorem c8_show_idempotent_witness :
    (amShowStart (amShowStart ⟨.exited, 0, 0⟩)).enterSequences = 0 + 1
    ∧ amShowStart ⟨.entered, 3, 1⟩ = ⟨.entered, 3, 1⟩ :=
  ⟨(c8_show_idempotent ⟨.exited, 0, 0⟩).2.2.2.1 rfl,
    (c8_show_idempotent ⟨.entered, 3, 1⟩).2.2.2.2 (Or.inr rfl)⟩

/-- C9: the wait for transition completion resolves at the first of the
native completion event and the fallback timer: its resolution time never
exceeds the fallback delay (so the wait cannot stall forever on an element
that fires no event), it equals `min eventTime fallback` when the element
fires at `eventTime`, it equals the fallback exactly when no event ever
fires, and the fallback defaults to 300 when no duration is configured.
(The promise resolves once; the later of the two `resolve` calls is
ignored, which the minimum captures.) -/
theorem c9_wait_first_of (d : Option ℚ) (e : Option ℚ) :
    waitResolveTime d e ≤ fallbackDelay d
    ∧ (∀ t, e = some t → waitResolveTime d e = min t (fallbackDelay d))
    ∧ (e = none → waitResolveTime d e = fallbackDelay d)
    ∧ fallbackDelay none = 300 := by
  refine ⟨?_, ?_, ?_, rfl⟩
  · cases e with
    | none => simp [waitResolveTime, resolveCalls]
    | some t =>
        simp only [waitResolveTime, resolveCalls, List.cons_append,
          List.nil_append, List.foldl]
        exact min_le_right t (fallbackDelay d)
  · intro t ht
    subst ht
    simp [waitResolveTime, resolveCalls]
  · intro ht
    subst ht
    simp [waitResolveTime, resolveCalls]

/-- C9 witness: with a configured duration of 500 and a completion event at
time 100 the wait resolves at 100; with no event it resolves at the
fallback 500; an unset duration falls back to 300. -/
theorem c9_wait_first_of_witness :
    waitResolveTime (some 500) (some 100) = min 100 (fallbackDelay (some 500))
    ∧ waitResolveTime (some 500) none = fallbackDelay (some 500)
    ∧ waitResolveTime (some 500) (some 100) ≤ fallbackDelay (some 500)
    ∧ fallbackDelay none = 300 :=
  ⟨(c9_wait_first_of (some 500) (some 100)).2.1 100 rfl,
    (c9_wait_first_of (some 500) none).2.2.1 rfl,
    (c9_wait_first_of (some 500) (some 100)).1,
    (c9_wait_first_of (some 500) (some 100)).2.2.2⟩

end Spec2Proof
